import Mathlib

/-!
A shallow embedding of the Frame Composition Engine of the editly fork
(src/unnamed/part_000, the createFrameSource module) together with the
fill-color fabric frame source (src/sources/fabric/fabricFrameSources.js),
and proofs of the specified properties of the engine.

Times, layer starts and durations are embedded as rationals.  JavaScript
division by zero produces NaN or signed infinities, which the activation
test then rejects; this is captured by the JSNum type below.  Raw RGBA
buffers are embedded as lists of abstract pixel values (strings), one entry
per pixel.
-/

namespace Editly

/-- A raw RGBA frame buffer, one abstract pixel value per entry. -/
abbrev Buffer := List String

/-- Parameters of a layer that the embedded frame sources consume.  Only the
fill-color source is embedded in full (it is the only layer renderer whose
behaviour the specified properties depend on), so only its color parameter is
modelled; the remaining per-layer params are opaque to the engine anyway. -/
structure FillParams where
  color : Option String
  deriving DecidableEq

/-- A declarative layer: a type tag, a start time, a duration of the active
window, and type-specific parameters.  Mirrors the layer objects destructured
in createFrameSource. -/
structure Layer where
  type : String
  start : ℚ
  layerDuration : ℚ
  params : FillParams
  deriving DecidableEq

/-- A clip: a duration plus an ordered list of layers. -/
structure Clip where
  duration : ℚ
  layers : List Layer

/-- The result of a JavaScript floating point division: either a finite
value, a signed infinity, or NaN. -/
inductive JSNum where
  | fin (q : ℚ)
  | posInf
  | negInf
  | nan
  deriving DecidableEq

/-- JavaScript division.  Division by zero yields NaN for a zero numerator
and a signed infinity otherwise.  (The sign of a zero denominator is not
representable in ℚ; it only flips the sign of the infinity, which the
activation window test below rejects either way.) -/
def jsDiv (a b : ℚ) : JSNum :=
  if b = 0 then
    if a = 0 then JSNum.nan else if 0 < a then JSNum.posInf else JSNum.negInf
  else JSNum.fin (a / b)

/-- The JavaScript comparison x >= 0.  NaN compares false. -/
def jsGe0 : JSNum → Bool
  | JSNum.fin q => decide (0 ≤ q)
  | JSNum.posInf => true
  | JSNum.negInf => false
  | JSNum.nan => false

/-- The JavaScript comparison x <= 1.  NaN compares false. -/
def jsLe1 : JSNum → Bool
  | JSNum.fin q => decide (q ≤ 1)
  | JSNum.posInf => false
  | JSNum.negInf => true
  | JSNum.nan => false

/-- offsetProgress = (time - layer.start) / layer.layerDuration, with the
JavaScript division semantics. -/
def offsetProgressJS (layer : Layer) (time : ℚ) : JSNum :=
  jsDiv (time - layer.start) layer.layerDuration

/-- The finite value of offsetProgress.  Whenever the layer passes the
activation test its JavaScript offsetProgress is finite and equals this
rational, and this is the value handed to the render call of the frame
source. -/
def offsetProgress (layer : Layer) (time : ℚ) : ℚ :=
  (time - layer.start) / layer.layerDuration

/-- shouldDrawLayer = offsetProgress >= 0 && offsetProgress <= 1. -/
def shouldDrawLayer (layer : Layer) (time : ℚ) : Bool :=
  jsGe0 (offsetProgressJS layer time) && jsLe1 (offsetProgressJS layer time)

/-- A drawable object accumulated on the fabric canvas: either a rectangle
with a fill (as added by the fill-color source) or a full-frame image
wrapping a raw RGBA buffer (as added by the engine via rgbaToFabricImage). -/
inductive CObj where
  | rect (left top width height : ℚ) (fill : String)
  | image (rgba : Buffer)
  deriving DecidableEq

/-- createFabricCanvas yields a canvas whose object list is empty. -/
def createFabricCanvas : List CObj := []

/-- A deterministic rendering of a rational used by the canvas object list
serialization. -/
def ratStr (q : ℚ) : String :=
  toString q.num ++ "/" ++ toString q.den

/-- A deterministic, order-sensitive serialization of one canvas object,
part of the model of JSON.stringify over the canvas object list. -/
def stringifyObj : CObj → String
  | CObj.rect l t w h f =>
      "rect(" ++ ratStr l ++ "," ++ ratStr t ++ "," ++ ratStr w ++ ","
        ++ ratStr h ++ "," ++ f ++ ")"
  | CObj.image rgba =>
      "image(" ++ String.intercalate "," rgba ++ ")"

/-- Model of objectsString = JSON.stringify(canvas._objects): a
deterministic, order-sensitive serialization of the object list. -/
def stringifyObjects (objs : List CObj) : String :=
  "[" ++ String.intercalate "," (objs.map stringifyObj) ++ "]"

/-- Modelled from the spec: the external scene-graph engine (fabric) supplies
the per-object pixel coverage used by the rasterize operation; the concrete
renderer is not under src.  A rectangle covers the pixels inside its bounds;
a wrapped full-frame image covers every pixel, reading the pixel value from
its buffer in row-major order. -/
def pixelAt (width : ℕ) (x y : ℕ) : CObj → Option String
  | CObj.rect l t w h f =>
      if l ≤ (x : ℚ) ∧ (x : ℚ) < l + w ∧ t ≤ (y : ℚ) ∧ (y : ℚ) < t + h then
        some f
      else none
  | CObj.image rgba => some (rgba.getD (y * width + x) "")

/-- The color of one pixel after compositing an object list in order: the
last object covering the pixel wins (painter algorithm); uncovered pixels
keep the background value. -/
def rasterizePixel (width : ℕ) (objs : List CObj) (x y : ℕ) : String :=
  objs.foldl (fun acc o => (pixelAt width x y o).getD acc) ""

/-- Modelled from the spec: renderFabricCanvas (src/sources/fabric.js, not
under src) rasterizes the canvas object list to a raw RGBA buffer of
width * height pixels in row-major order. -/
def renderFabricCanvas (width height : ℕ) (objs : List CObj) : Buffer :=
  (List.range (width * height)).map
    (fun i => rasterizePixel width objs (i % width) (i / width))

/-- A constructed per-layer frame source: the render operation receives the
layer-local progress and the current canvas object list and yields the new
object list together with an optional raw RGBA buffer; close yields the
outcome of releasing its resources. -/
structure FrameSource where
  render : ℚ → List CObj → List CObj × Option Buffer
  close : Except String Unit

/-- The observable per-frame operations of readNextFrame, recorded as a
trace: canvas creation, a render call on the source at a given index with a
given progress, wrapping a returned buffer as an image and adding it to the
canvas, serializing the object list into the cache key, clearing and
disposing the canvas on the cache hit path, and rasterization. -/
inductive FrameOp where
  | createCanvas
  | renderSource (idx : ℕ) (progress : ℚ)
  | addImage (rgba : Buffer)
  | serialize
  | clear
  | dispose
  | rasterize
  deriving DecidableEq

/-- The value readNextFrame hands back to its caller: the bare buffer on the
single-layer fast path, the unchanged sentinel paired with the cache key, or
a freshly rasterized buffer paired with the cache key. -/
inductive FrameOutcome where
  | fastPath (rgba : Buffer)
  | unchanged (objectsString : String)
  | changed (rgba : Buffer) (objectsString : String)
  deriving DecidableEq

/-- The layer loop of readNextFrame.  n is layerFrameSources.length, fixed
before the loop starts.  For each source in order: compute offsetProgress,
test the activation window, and when active call render; a returned buffer
either short-circuits the whole call (when n = 1) or is wrapped as an image
and added to the canvas; a source returning nothing is assumed to have drawn
onto the canvas.  The result is either the final object list or the
fast-path buffer, together with the emitted operation trace. -/
def composeLoop (n : ℕ) (time : ℚ) :
    List (Layer × FrameSource) → ℕ → List CObj →
    (List CObj ⊕ Buffer) × List FrameOp
  | [], _, canvas => (Sum.inl canvas, [])
  | (layer, fs) :: rest, idx, canvas =>
    if shouldDrawLayer layer time then
      match fs.render (offsetProgress layer time) canvas with
      | (canvas2, some rgba) =>
        if n = 1 then
          (Sum.inr rgba, [FrameOp.renderSource idx (offsetProgress layer time)])
        else
          let r := composeLoop n time rest (idx + 1) (canvas2 ++ [CObj.image rgba])
          (r.1, FrameOp.renderSource idx (offsetProgress layer time)
                  :: FrameOp.addImage rgba :: r.2)
      | (canvas2, none) =>
        let r := composeLoop n time rest (idx + 1) canvas2
        (r.1, FrameOp.renderSource idx (offsetProgress layer time) :: r.2)
    else composeLoop n time rest (idx + 1) canvas

/-- The truthiness-guarded cache test of readNextFrame:
lastCanvasObjects && objectsString === lastCanvasObjects.  An absent or
empty (falsy) lastCanvasObjects never hits. -/
def cacheHit (lastCanvasObjects : Option String) (objectsString : String) : Bool :=
  match lastCanvasObjects with
  | none => false
  | some s => !(s == "") && (objectsString == s)

/-- readNextFrame: create a fresh canvas, run the layer loop, and either
return the fast-path buffer bare, or serialize the object list into the
cache key and return the unchanged sentinel (clearing and disposing the
canvas, no rasterization) on a cache hit, or rasterize and return the buffer
with the key. -/
def readNextFrame (width height : ℕ) (srcs : List (Layer × FrameSource))
    (time : ℚ) (lastCanvasObjects : Option String) :
    FrameOutcome × List FrameOp :=
  match composeLoop srcs.length time srcs 0 createFabricCanvas with
  | (Sum.inr rgba, ops) => (FrameOutcome.fastPath rgba, FrameOp.createCanvas :: ops)
  | (Sum.inl canvas, ops) =>
    let objectsString := stringifyObjects canvas
    if cacheHit lastCanvasObjects objectsString then
      (FrameOutcome.unchanged objectsString,
        (FrameOp.createCanvas :: ops) ++ [FrameOp.serialize, FrameOp.clear, FrameOp.dispose])
    else
      (FrameOutcome.changed (renderFabricCanvas width height canvas) objectsString,
        (FrameOp.createCanvas :: ops) ++ [FrameOp.serialize, FrameOp.rasterize])

/-- The canvas object list a readNextFrame call builds, or none when the
call short-circuits through the single-layer fast path. -/
def composeCanvas (srcs : List (Layer × FrameSource)) (time : ℚ) :
    Option (List CObj) :=
  match composeLoop srcs.length time srcs 0 createFabricCanvas with
  | (Sum.inl canvas, _) => some canvas
  | (Sum.inr _, _) => none

/-- The draw of the process-local random source made when a frame source is
constructed.  Two independent runs of the engine each make their own draw. -/
structure RandomState where
  draw : String
  deriving DecidableEq

/-- Modelled from the spec: getRandomColors lives in the colors module of the
repository, which is not under src; it picks n colors at random.  The random
draw is made explicit as a RandomState argument. -/
def getRandomColors (r : RandomState) (n : ℕ) : List String :=
  List.replicate n r.draw

/-- The JavaScript expression color || randomColor: a string is falsy
exactly when it is empty, so an absent or empty color falls back. -/
def jsOrString (color : Option String) (fallback : String) : String :=
  match color with
  | some s => if s == "" then fallback else s
  | none => fallback

/-- fillColorFrameSource: destructures the color param, draws one random
fallback color at construction time, and on every render adds a full-frame
rectangle filled with color || randomColor to the canvas, returning no
buffer.  (The right property passed to the fabric rectangle in the source
has no effect on a fabric.Rect; top defaults to 0.)  No onClose is defined,
so closing it succeeds trivially. -/
def fillColorFrameSource (r : RandomState) (params : FillParams)
    (width height : ℚ) : FrameSource :=
  let randomColor := (getRandomColors r 1).headD ""
  { render := fun _ canvas =>
      (canvas ++ [CObj.rect 0 0 width height (jsOrString params.color randomColor)], none)
    close := Except.ok () }

/-- Modelled from the spec: the remaining layer renderers (the other fabric
sources, video, gl and custom canvas) construct frame sources whose bodies
live outside src or draw through the external fabric engine; none of the
specified properties depends on their behaviour, so they are represented by
a source that leaves the canvas unchanged and closes successfully. -/
def genericFrameSource : FrameSource :=
  { render := fun _ canvas => (canvas, none)
    close := Except.ok () }

/-- The keys of the fabricFrameSources table of the engine module. -/
def fabricSourceTypes : List String :=
  ["fabric", "image", "image-overlay", "title", "subtitle", "linear-gradient",
   "radial-gradient", "fill-color", "news-title", "slide-in-text"]

/-- The registry lookup of createFrameSource: first the fabricFrameSources
table, then the video / gl / canvas table; none means the assert on
createFrameSourceFunc fires. -/
def lookupCreateFunc (r : RandomState) (width height : ℚ) (l : Layer) :
    Option FrameSource :=
  if fabricSourceTypes.contains l.type then
    some (if l.type == "fill-color" then
            fillColorFrameSource r l.params width height
          else genericFrameSource)
  else
    match l.type with
    | "video" => some genericFrameSource
    | "gl" => some genericFrameSource
    | "canvas" => some genericFrameSource
    | _ => none

/-- The visual layers of a clip: layers whose type is not audio. -/
def visualLayers (clip : Clip) : List Layer :=
  clip.layers.filter (fun l => l.type != "audio")

/-- One event of the construction phase: the factory for the layer at an
index is invoked, or it completes. -/
inductive BuildEvent where
  | invoke (idx : ℕ)
  | complete (idx : ℕ)
  deriving DecidableEq

/-- The construction loop of createFrameSource: pMap over the visual layers
with concurrency one, so the factory for each layer is invoked only after
the previous factory completed.  An unknown type fails the assert with
Invalid type before any factory for that layer is invoked and aborts the
remaining construction. -/
def buildLoop (r : RandomState) (width height : ℚ) :
    List Layer → ℕ → List BuildEvent × Except String (List (Layer × FrameSource))
  | [], _ => ([], Except.ok [])
  | l :: rest, idx =>
    match lookupCreateFunc r width height l with
    | none => ([], Except.error ("Invalid type " ++ l.type))
    | some fs =>
      let tail := buildLoop r width height rest (idx + 1)
      (BuildEvent.invoke idx :: BuildEvent.complete idx :: tail.1,
       match tail.2 with
       | Except.ok srcs => Except.ok ((l, fs) :: srcs)
       | Except.error e => Except.error e)

/-- createFrameSource: filter out audio layers and construct one frame
source per visual layer, strictly one at a time, in layer order. -/
def createFrameSource (r : RandomState) (width height : ℚ) (clip : Clip) :
    List BuildEvent × Except String (List (Layer × FrameSource)) :=
  buildLoop r width height (visualLayers clip) 0

/-- Whether an Except carries a value. -/
def exceptOk {α : Type} : Except String α → Bool
  | Except.ok _ => true
  | Except.error _ => false

/-- A whole engine run: construct the frame sources for the clip and, when
construction succeeded, compose the frame at the requested time.  Frames can
only ever be composed from a fully constructed source list. -/
def runEngine (r : RandomState) (width height : ℕ) (clip : Clip) (time : ℚ)
    (lastCanvasObjects : Option String) : Option FrameOutcome :=
  match (createFrameSource r width height clip).2 with
  | Except.ok srcs => some (readNextFrame width height srcs time lastCanvasObjects).1
  | Except.error _ => none

/-- The spawn loop of pMap with unbounded concurrency, as used by the close
function of the engine: every mapper is invoked (each invocation is recorded
by its index) before any settled result is inspected, so a failing close
never prevents the remaining closes from being started. -/
def spawnAll : List (Unit → Except String Unit) → ℕ →
    List ℕ × List (Except String Unit)
  | [], _ => ([], [])
  | m :: rest, idx =>
    let res := m ()
    let tail := spawnAll rest (idx + 1)
    (idx :: tail.1, res :: tail.2)

/-- pMap settles to the first rejection among the settled results, if any. -/
def aggregateResults : List (Except String Unit) → Except String Unit
  | [] => Except.ok ()
  | Except.ok () :: rest => aggregateResults rest
  | Except.error e :: _ => Except.error e

/-- close on the engine: pMap over the constructed sources with the default
unbounded concurrency, invoking close on every source; the call rejects when
any close rejected.  Returns the indices of the sources whose close was
invoked together with the aggregate outcome. -/
def closeAll (srcs : List (Layer × FrameSource)) :
    List ℕ × Except String Unit :=
  let spawned := spawnAll (srcs.map (fun s => fun _ => s.2.close)) 0
  (spawned.1, aggregateResults spawned.2)

/-- The strictly sequential event list of constructing n frame sources from
a running index: invoke and complete each factory before the next one. -/
def seqEvents : ℕ → ℕ → List BuildEvent
  | 0, _ => []
  | n + 1, idx => BuildEvent.invoke idx :: BuildEvent.complete idx :: seqEvents n (idx + 1)

/-- A contract-level raw-buffer frame source, the second render mode of the
frame source contract (the video / gl family): it returns a fixed RGBA
buffer and performs no canvas mutation.  Used as a concrete instance of the
contract in the examples below. -/
def bufferSource (buf : Buffer) : FrameSource :=
  { render := fun _ canvas => (canvas, some buf)
    close := Except.ok () }

/-- A frame source whose close succeeds. -/
def okCloseSource : FrameSource :=
  { render := fun _ canvas => (canvas, none)
    close := Except.ok () }

/-- A frame source whose close rejects. -/
def errCloseSource : FrameSource :=
  { render := fun _ canvas => (canvas, none)
    close := Except.error "boom" }

/-- A fill-color layer with an explicit color, active on the interval 0 to 10. -/
def fillLayer : Layer := { type := "fill-color", start := 0, layerDuration := 10, params := { color := some "red" } }

/-- A second fill-color layer with an explicit color. -/
def fillLayer2 : Layer := { type := "fill-color", start := 2, layerDuration := 2, params := { color := some "blue" } }

/-- A fill-color layer without a color parameter. -/
def noColorLayer : Layer := { type := "fill-color", start := 0, layerDuration := 10, params := { color := none } }

/-- A clip holding a single fill-color layer without a color parameter. -/
def noColorClip : Clip := { duration := 10, layers := [noColorLayer] }

/-- A clip holding a single fill-color layer with an explicit color. -/
def redClip : Clip := { duration := 10, layers := [fillLayer] }

/-- A clip holding two valid visual layers. -/
def twoLayerClip : Clip := { duration := 10, layers := [fillLayer, fillLayer2] }

/-- An audio layer: filtered out before construction. -/
def audioLayer : Layer := { type := "audio", start := 0, layerDuration := 10, params := { color := none } }

/-- A clip holding an audio layer (whose type matches no factory) and a
valid visual layer. -/
def audioClip : Clip := { duration := 10, layers := [audioLayer, fillLayer] }

/-- A layer whose type tag matches no registered factory. -/
def bogusLayer : Layer := { type := "bogus", start := 0, layerDuration := 10, params := { color := none } }

/-- A clip holding only the unknown-type layer. -/
def bogusClip : Clip := { duration := 10, layers := [bogusLayer] }

/-- A layer with a negative duration. -/
def negDurLayer : Layer := { type := "fill-color", start := 0, layerDuration := -1, params := { color := some "red" } }

/-- An engine holding only the negative-duration fill-color layer. -/
def negDurSrcs : List (Layer × FrameSource) :=
  [(negDurLayer, fillColorFrameSource { draw := "z" } negDurLayer.params 1 1)]

/-- A buffer-returning layer active at time 0. -/
def c1LayerA : Layer := { type := "video", start := 0, layerDuration := 1, params := { color := none } }

/-- A layer inactive at time 0 (it starts at 100). -/
def c1LayerB : Layer := { type := "video", start := 100, layerDuration := 1, params := { color := none } }

/-- The buffer returned by the active source of the two-layer engine. -/
def c1Buf : Buffer := ["p"]

/-- A two-source engine of which exactly one source is active at time 0. -/
def c1Srcs : List (Layer × FrameSource) :=
  [(c1LayerA, bufferSource c1Buf), (c1LayerB, bufferSource ["q"])]

/-- A single buffer-returning layer active over 0 to 10. -/
def c1SingleLayer : Layer := { type := "video", start := 0, layerDuration := 10, params := { color := none } }

/-- The single buffer-returning source of the one-layer engine. -/
def c1SingleSrc : FrameSource := bufferSource ["v"]

/-- A one-source engine whose fill color is explicit, at a 1 by 1 canvas. -/
def c2Srcs : List (Layer × FrameSource) :=
  [(fillLayer, fillColorFrameSource { draw := "x" } { color := some "red" } 1 1)]

/-- The canvas object list that engine builds at every active time. -/
def c2L : List CObj := [CObj.rect 0 0 1 1 "red"]

/-- A two-source engine whose second close rejects. -/
def c7Srcs : List (Layer × FrameSource) :=
  [(fillLayer, okCloseSource), (fillLayer, errCloseSource)]

/-- The lower layer of the z-order example, declared first. -/
def c8LayA : Layer := { type := "fill-color", start := 0, layerDuration := 1, params := { color := some "red" } }

/-- The upper layer of the z-order example, declared second. -/
def c8LayB : Layer := { type := "video", start := 0, layerDuration := 1, params := { color := none } }

/-- The buffer returned by the upper source of the z-order example. -/
def c8BufB : Buffer := ["b0", "b1", "b2", "b3"]

/-- The lower source of the z-order example: draws a full-frame rectangle. -/
def c8SrcA : FrameSource := fillColorFrameSource { draw := "x" } { color := some "red" } 2 2

/-- The upper source of the z-order example: returns a raw buffer. -/
def c8SrcB : FrameSource := bufferSource c8BufB

/-! ### Helper lemmas about the layer loop trace -/

/-- Every operation the layer loop emits is a render call or an image add. -/
lemma composeLoop_ops (n : ℕ) (t : ℚ) (srcs : List (Layer × FrameSource)) :
    ∀ (idx : ℕ) (canvas : List CObj) (e : FrameOp),
      e ∈ (composeLoop n t srcs idx canvas).2 →
      (∃ j p, e = FrameOp.renderSource j p) ∨ (∃ b, e = FrameOp.addImage b) := by
  induction srcs with
  | nil => intro idx canvas e h; simp [composeLoop] at h
  | cons hd tl ih =>
    obtain ⟨layer, fs⟩ := hd
    intro idx canvas e h
    cases hdraw : shouldDrawLayer layer t with
    | false =>
      simp only [composeLoop, hdraw, Bool.false_eq_true, if_false] at h
      exact ih (idx + 1) canvas e h
    | true =>
      rcases hr : fs.render (offsetProgress layer t) canvas with ⟨canvas2, rgba⟩
      cases rgba with
      | none =>
        simp only [composeLoop, hdraw, if_true, hr, List.mem_cons] at h
        rcases h with h | h
        · exact Or.inl ⟨idx, offsetProgress layer t, h⟩
        · exact ih (idx + 1) canvas2 e h
      | some buf =>
        by_cases hn : n = 1
        · simp only [composeLoop, hdraw, if_true, hr, hn, List.mem_singleton] at h
          exact Or.inl ⟨idx, offsetProgress layer t, h⟩
        · simp only [composeLoop, hdraw, if_true, hr, hn, if_false, List.mem_cons] at h
          rcases h with h | h | h
          · exact Or.inl ⟨idx, offsetProgress layer t, h⟩
          · exact Or.inr ⟨buf, h⟩
          · exact ih (idx + 1) (canvas2 ++ [CObj.image buf]) e h

/-- The layer loop never rasterizes. -/
lemma composeLoop_no_rasterize (n : ℕ) (t : ℚ) (srcs : List (Layer × FrameSource))
    (idx : ℕ) (canvas : List CObj) :
    FrameOp.rasterize ∉ (composeLoop n t srcs idx canvas).2 := by
  intro h
  rcases composeLoop_ops n t srcs idx canvas _ h with ⟨j, p, he⟩ | ⟨b, he⟩ <;> cases he

/-- The layer loop never serializes the object list. -/
lemma composeLoop_no_serialize (n : ℕ) (t : ℚ) (srcs : List (Layer × FrameSource))
    (idx : ℕ) (canvas : List CObj) :
    FrameOp.serialize ∉ (composeLoop n t srcs idx canvas).2 := by
  intro h
  rcases composeLoop_ops n t srcs idx canvas _ h with ⟨j, p, he⟩ | ⟨b, he⟩ <;> cases he

/-- Render events emitted by the loop carry indices at or above the running
index. -/
lemma composeLoop_renderSource_ge (n : ℕ) (t : ℚ) (srcs : List (Layer × FrameSource)) :
    ∀ (idx : ℕ) (canvas : List CObj) (j : ℕ) (p : ℚ),
      FrameOp.renderSource j p ∈ (composeLoop n t srcs idx canvas).2 → idx ≤ j := by
  induction srcs with
  | nil => intro idx canvas j p h; simp [composeLoop] at h
  | cons hd tl ih =>
    obtain ⟨layer, fs⟩ := hd
    intro idx canvas j p h
    cases hdraw : shouldDrawLayer layer t with
    | false =>
      simp only [composeLoop, hdraw, Bool.false_eq_true, if_false] at h
      exact Nat.le_of_succ_le (ih (idx + 1) canvas j p h)
    | true =>
      rcases hr : fs.render (offsetProgress layer t) canvas with ⟨canvas2, rgba⟩
      cases rgba with
      | none =>
        simp only [composeLoop, hdraw, if_true, hr, List.mem_cons,
          FrameOp.renderSource.injEq] at h
        rcases h with ⟨rfl, rfl⟩ | h
        · exact Nat.le_refl j
        · exact Nat.le_of_succ_le (ih (idx + 1) canvas2 j p h)
      | some buf =>
        by_cases hn : n = 1
        · simp only [composeLoop, hdraw, if_true, hr, hn, List.mem_singleton,
            FrameOp.renderSource.injEq] at h
          exact h.1 ▸ Nat.le_refl idx
        · simp only [composeLoop, hdraw, if_true, hr, hn, if_false, List.mem_cons,
            FrameOp.renderSource.injEq] at h
          rcases h with ⟨rfl, rfl⟩ | h | h
          · exact Nat.le_refl j
          · cases h
          · exact Nat.le_of_succ_le (ih (idx + 1) (canvas2 ++ [CObj.image buf]) j p h)

/-- Soundness of the render trace (multi-layer case): a render event at
index idx + i with progress p comes from the source at position i, which
passed the activation test, and p is its offsetProgress. -/
lemma composeLoop_mem_sound (n : ℕ) (t : ℚ) (hn : n ≠ 1)
    (srcs : List (Layer × FrameSource)) :
    ∀ (idx : ℕ) (canvas : List CObj) (j : ℕ) (p : ℚ),
      FrameOp.renderSource j p ∈ (composeLoop n t srcs idx canvas).2 →
      ∃ i layer fs, srcs.get? i = some (layer, fs) ∧ j = idx + i ∧
        shouldDrawLayer layer t = true ∧ p = offsetProgress layer t := by
  induction srcs with
  | nil => intro idx canvas j p h; simp [composeLoop] at h
  | cons hd tl ih =>
    obtain ⟨layer, fs⟩ := hd
    intro idx canvas j p h
    cases hdraw : shouldDrawLayer layer t with
    | false =>
      simp only [composeLoop, hdraw, Bool.false_eq_true, if_false] at h
      obtain ⟨i, layer2, fs2, hget, hj, hd2, hp⟩ := ih (idx + 1) canvas j p h
      exact ⟨i + 1, layer2, fs2, by simpa using hget, by omega, hd2, hp⟩
    | true =>
      rcases hr : fs.render (offsetProgress layer t) canvas with ⟨canvas2, rgba⟩
      cases rgba with
      | none =>
        simp only [composeLoop, hdraw, if_true, hr, List.mem_cons,
          FrameOp.renderSource.injEq] at h
        rcases h with ⟨rfl, rfl⟩ | h
        · exact ⟨0, layer, fs, rfl, by omega, hdraw, rfl⟩
        · obtain ⟨i, layer2, fs2, hget, hj, hd2, hp⟩ := ih (idx + 1) canvas2 j p h
          exact ⟨i + 1, layer2, fs2, by simpa using hget, by omega, hd2, hp⟩
      | some buf =>
        simp only [composeLoop, hdraw, if_true, hr, hn, if_false, List.mem_cons,
          FrameOp.renderSource.injEq] at h
        rcases h with ⟨rfl, rfl⟩ | h | h
        · exact ⟨0, layer, fs, rfl, by omega, hdraw, rfl⟩
        · cases h
        · obtain ⟨i, layer2, fs2, hget, hj, hd2, hp⟩ :=
            ih (idx + 1) (canvas2 ++ [CObj.image buf]) j p h
          exact ⟨i + 1, layer2, fs2, by simpa using hget, by omega, hd2, hp⟩

/-- Completeness of the render trace (multi-layer case): every source whose
layer passes the activation test is rendered at its offsetProgress. -/
lemma composeLoop_mem_complete (n : ℕ) (t : ℚ) (hn : n ≠ 1)
    (srcs : List (Layer × FrameSource)) :
    ∀ (idx : ℕ) (canvas : List CObj) (i : ℕ) (layer : Layer) (fs : FrameSource),
      srcs.get? i = some (layer, fs) → shouldDrawLayer layer t = true →
      FrameOp.renderSource (idx + i) (offsetProgress layer t) ∈
        (composeLoop n t srcs idx canvas).2 := by
  induction srcs with
  | nil => intro idx canvas i layer fs hget; simp at hget
  | cons hd tl ih =>
    obtain ⟨layer0, fs0⟩ := hd
    intro idx canvas i layer fs hget hdraw
    cases i with
    | zero =>
      rw [List.get?_cons_zero, Option.some_inj] at hget
      have hl : layer0 = layer := congrArg Prod.fst hget
      rw [← hl] at hdraw
      rw [← hl]
      rcases hr : fs0.render (offsetProgress layer0 t) canvas with ⟨canvas2, rgba⟩
      cases rgba with
      | none => simp [composeLoop, hdraw, hr]
      | some buf =>
        simp [composeLoop, hdraw, hr, hn]
    | succ i =>
      rw [List.get?_cons_succ] at hget
      have harith : idx + (i + 1) = (idx + 1) + i := by omega
      cases hdraw0 : shouldDrawLayer layer0 t with
      | false =>
        simp only [composeLoop, hdraw0, Bool.false_eq_true, if_false]
        rw [harith]
        exact ih (idx + 1) canvas i layer fs hget hdraw
      | true =>
        rcases hr : fs0.render (offsetProgress layer0 t) canvas with ⟨canvas2, rgba⟩
        cases rgba with
        | none =>
          simp only [composeLoop, hdraw0, if_true, hr, List.mem_cons]
          right
          rw [harith]
          exact ih (idx + 1) canvas2 i layer fs hget hdraw
        | some buf =>
          simp only [composeLoop, hdraw0, if_true, hr, hn, if_false, List.mem_cons]
          right; right
          rw [harith]
          exact ih (idx + 1) (canvas2 ++ [CObj.image buf]) i layer fs hget hdraw

/-- The single-source loop renders its source exactly when the layer passes
the activation test, at its offsetProgress. -/
lemma composeLoop_single_mem (t : ℚ) (layer : Layer) (fs : FrameSource)
    (canvas : List CObj) (j : ℕ) (p : ℚ) :
    FrameOp.renderSource j p ∈ (composeLoop 1 t [(layer, fs)] 0 canvas).2 ↔
      (j = 0 ∧ shouldDrawLayer layer t = true ∧ p = offsetProgress layer t) := by
  cases hdraw : shouldDrawLayer layer t with
  | false => simp [composeLoop, hdraw]
  | true =>
    rcases hr : fs.render (offsetProgress layer t) canvas with ⟨canvas2, rgba⟩
    cases rgba with
    | none => simp [composeLoop, hdraw, hr, and_comm]
    | some buf => simp [composeLoop, hdraw, hr, and_comm]

/-- The trace of readNextFrame is the canvas creation, then the loop trace,
then a tail holding no render event. -/
lemma readNextFrame_snd (width height : ℕ) (srcs : List (Layer × FrameSource))
    (t : ℚ) (last : Option String) :
    ∃ tail, (readNextFrame width height srcs t last).2 =
      FrameOp.createCanvas ::
        ((composeLoop srcs.length t srcs 0 createFabricCanvas).2 ++ tail) ∧
      ∀ j p, FrameOp.renderSource j p ∉ tail := by
  rw [readNextFrame]
  rcases hc : composeLoop srcs.length t srcs 0 createFabricCanvas with ⟨res, ops⟩
  cases res with
  | inr rgba => exact ⟨[], by simp, by simp⟩
  | inl canvas =>
    by_cases hhit : cacheHit last (stringifyObjects canvas)
    · refine ⟨[FrameOp.serialize, FrameOp.clear, FrameOp.dispose], ?_, by simp⟩
      simp [hhit]
    · refine ⟨[FrameOp.serialize, FrameOp.rasterize], ?_, by simp⟩
      simp [hhit]

/-- A render event appears in the trace of readNextFrame exactly when it
appears in the layer loop trace. -/
lemma readNextFrame_renderSource_iff (width height : ℕ)
    (srcs : List (Layer × FrameSource)) (t : ℚ) (last : Option String)
    (j : ℕ) (p : ℚ) :
    FrameOp.renderSource j p ∈ (readNextFrame width height srcs t last).2 ↔
      FrameOp.renderSource j p ∈ (composeLoop srcs.length t srcs 0 createFabricCanvas).2 := by
  obtain ⟨tail, heq, htail⟩ := readNextFrame_snd width height srcs t last
  rw [heq]
  simp only [List.mem_cons, List.mem_append]
  constructor
  · rintro (h | h | h)
    · cases h
    · exact h
    · exact absurd h (htail j p)
  · intro h; exact Or.inr (Or.inl h)

/-- In any readNextFrame call, the source at position i is rendered at the
offsetProgress of its layer exactly when its layer passes the activation
test. -/
lemma readNextFrame_renders_iff (width height : ℕ)
    (srcs : List (Layer × FrameSource)) (t : ℚ) (last : Option String)
    (i : ℕ) (layer : Layer) (fs : FrameSource)
    (hget : srcs.get? i = some (layer, fs)) :
    FrameOp.renderSource i (offsetProgress layer t) ∈
        (readNextFrame width height srcs t last).2 ↔
      shouldDrawLayer layer t = true := by
  rw [readNextFrame_renderSource_iff]
  by_cases hn : srcs.length = 1
  · obtain ⟨a, rfl⟩ := List.length_eq_one.mp hn
    obtain ⟨layer0, fs0⟩ := a
    have hi : i = 0 := by
      cases i with
      | zero => rfl
      | succ k => simp at hget
    subst hi
    rw [List.get?_cons_zero, Option.some_inj] at hget
    have hl : layer0 = layer := congrArg Prod.fst hget
    rw [← hl]
    rw [hn, composeLoop_single_mem]
    simp
  · constructor
    · intro h
      obtain ⟨i2, layer2, fs2, hget2, hj, hd2, hp⟩ :=
        composeLoop_mem_sound srcs.length t hn srcs 0 createFabricCanvas i _ h
      have : i2 = i := by omega
      subst this
      rw [hget] at hget2
      rw [Option.some_inj] at hget2
      obtain ⟨rfl, rfl⟩ : layer2 = layer ∧ fs2 = fs :=
        ⟨(congrArg Prod.fst hget2).symm, (congrArg Prod.snd hget2).symm⟩
      exact hd2
    · intro hdraw
      have := composeLoop_mem_complete srcs.length t hn srcs 0 createFabricCanvas
        i layer fs hget hdraw
      simpa using this

/-- Any render event in a readNextFrame trace belongs to a source whose
layer passed the activation test. -/
lemma readNextFrame_renders_sound (width height : ℕ)
    (srcs : List (Layer × FrameSource)) (t : ℚ) (last : Option String)
    (i : ℕ) (p : ℚ)
    (hmem : FrameOp.renderSource i p ∈ (readNextFrame width height srcs t last).2) :
    ∃ layer fs, srcs.get? i = some (layer, fs) ∧ shouldDrawLayer layer t = true ∧
      p = offsetProgress layer t := by
  rw [readNextFrame_renderSource_iff] at hmem
  by_cases hn : srcs.length = 1
  · obtain ⟨a, rfl⟩ := List.length_eq_one.mp hn
    obtain ⟨layer0, fs0⟩ := a
    rw [hn, composeLoop_single_mem] at hmem
    obtain ⟨rfl, hdraw, rfl⟩ := hmem
    exact ⟨layer0, fs0, rfl, hdraw, rfl⟩
  · obtain ⟨i2, layer2, fs2, hget2, hj, hd2, hp⟩ :=
      composeLoop_mem_sound srcs.length t hn srcs 0 createFabricCanvas i p hmem
    have : i2 = i := by omega
    subst this
    exact ⟨layer2, fs2, hget2, hd2, hp⟩

/-! ### Helper lemmas: serialization, cache test, rasterization -/

/-- The serialized object list is never the empty (falsy) string. -/
lemma stringifyObjects_ne_empty (objs : List CObj) : stringifyObjects objs ≠ "" := by
  intro h
  have hlen : (stringifyObjects objs).length = 0 := by rw [h]; rfl
  rw [stringifyObjects, String.length_append, String.length_append] at hlen
  have h1 : ("[" : String).length = 1 := rfl
  have h2 : ("]" : String).length = 1 := rfl
  omega

/-- Supplying the current cache key hits the cache. -/
lemma cacheHit_self (key : String) (hk : key ≠ "") : cacheHit (some key) key = true := by
  simp [cacheHit, hk]

/-- No supplied key never hits the cache. -/
lemma cacheHit_none (key : String) : cacheHit none key = false := rfl

/-- A full-frame image added after any object list paints every pixel from
its buffer: the later drawable occludes all earlier ones. -/
lemma rasterizePixel_append_image (width : ℕ) (objs : List CObj) (buf : Buffer)
    (x y : ℕ) :
    rasterizePixel width (objs ++ [CObj.image buf]) x y = buf.getD (y * width + x) "" := by
  simp [rasterizePixel, List.foldl_append, pixelAt]

/-- Reading a pixel of the rasterized buffer at row-major position
y * width + x yields the painter-algorithm color of that pixel. -/
lemma renderFabricCanvas_pixel (width height : ℕ) (objs : List CObj) (x y : ℕ)
    (hx : x < width) (hy : y < height) :
    (renderFabricCanvas width height objs).getD (y * width + x) "" =
      rasterizePixel width objs x y := by
  have hw : 0 < width := Nat.lt_of_le_of_lt (Nat.zero_le x) hx
  have hidx : y * width + x < width * height := by
    have h1 : y * width + x < (y + 1) * width := by
      rw [Nat.succ_mul]; omega
    have h2 : (y + 1) * width ≤ height * width := Nat.mul_le_mul_right width hy
    calc y * width + x < (y + 1) * width := h1
      _ ≤ height * width := h2
      _ = width * height := Nat.mul_comm height width
  have hmod : (y * width + x) % width = x := by
    rw [Nat.add_comm, Nat.add_mul_mod_self_right]
    exact Nat.mod_eq_of_lt hx
  have hdiv : (y * width + x) / width = y := by
    rw [Nat.add_comm, Nat.add_mul_div_right _ _ hw, Nat.div_eq_of_lt hx, Nat.zero_add]
  rw [renderFabricCanvas, List.getD_eq_getElem?_getD, List.getElem?_map,
    List.getElem?_range hidx]
  simp [hmod, hdiv]

/-! ### Helper lemmas: the activation window -/

/-- For a positive duration the activation test is exactly the inclusive
unit interval test on the rational offsetProgress. -/
lemma shouldDraw_iff_of_pos (layer : Layer) (t : ℚ)
    (hd : 0 < layer.layerDuration) :
    shouldDrawLayer layer t = true ↔
      (0 ≤ offsetProgress layer t ∧ offsetProgress layer t ≤ 1) := by
  have hne : layer.layerDuration ≠ 0 := ne_of_gt hd
  simp [shouldDrawLayer, offsetProgressJS, jsDiv, hne, jsGe0, jsLe1, offsetProgress]

/-- A zero duration makes the JavaScript offsetProgress NaN or infinite, so
the activation test always fails. -/
lemma shouldDraw_zero_dur (layer : Layer) (t : ℚ)
    (hd : layer.layerDuration = 0) : shouldDrawLayer layer t = false := by
  by_cases h0 : t - layer.start = 0
  · simp [shouldDrawLayer, offsetProgressJS, jsDiv, hd, h0, jsGe0, jsLe1]
  · by_cases hpos : 0 < t - layer.start
    · simp [shouldDrawLayer, offsetProgressJS, jsDiv, hd, h0, hpos, jsGe0, jsLe1]
    · simp [shouldDrawLayer, offsetProgressJS, jsDiv, hd, h0, hpos, jsGe0, jsLe1]

/-- With a positive duration, a layer starting after the requested time
fails the activation test. -/
lemma shouldDraw_before_start (layer : Layer) (t : ℚ)
    (hd : 0 < layer.layerDuration) (ht : t < layer.start) :
    shouldDrawLayer layer t = false := by
  rcases Bool.eq_false_or_eq_true (shouldDrawLayer layer t) with h | h
  · exfalso
    obtain ⟨h0, h1⟩ := (shouldDraw_iff_of_pos layer t hd).mp h
    have hneg : offsetProgress layer t < 0 :=
      div_neg_of_neg_of_pos (by simp only [sub_neg]; exact ht) hd
    exact absurd h0 (not_le.mpr hneg)
  · exact h

/-- offsetProgress is exactly 0 at the start instant of the layer. -/
lemma offsetProgress_at_start (layer : Layer) :
    offsetProgress layer layer.start = 0 := by
  simp [offsetProgress]

/-- offsetProgress is exactly 1 at the end instant of the layer window. -/
lemma offsetProgress_at_end (layer : Layer)
    (hd : layer.layerDuration ≠ 0) :
    offsetProgress layer (layer.start + layer.layerDuration) = 1 := by
  rw [offsetProgress, add_sub_cancel_left]
  exact div_self hd

/-! ### Helper lemmas: construction and teardown -/

/-- The fill-color source ignores the random draw whenever a truthy color
parameter is supplied. -/
lemma fillColorFrameSource_indep (r1 r2 : RandomState) (s : String)
    (hs : s ≠ "") (width height : ℚ) :
    fillColorFrameSource r1 ⟨some s⟩ width height =
      fillColorFrameSource r2 ⟨some s⟩ width height := by
  have hbeq : (s == "") = false := by simp [hs]
  rw [fillColorFrameSource, fillColorFrameSource]
  simp [jsOrString, hbeq]

/-- The sequential event list in closed form: the interleaving of invoke i
and complete i for i below n. -/
lemma seqEvents_eq_flatten : ∀ (n idx : ℕ), seqEvents n idx =
    List.flatten ((List.range n).map
      (fun k => [BuildEvent.invoke (idx + k), BuildEvent.complete (idx + k)])) := by
  intro n
  induction n with
  | zero => intro idx; simp [seqEvents]
  | succ n ih =>
    intro idx
    rw [seqEvents, ih (idx + 1), List.range_succ_eq_map]
    simp only [List.map_cons, List.flatten_cons, List.map_map, Nat.add_zero]
    have hfun : ((fun k => [BuildEvent.invoke (idx + k), BuildEvent.complete (idx + k)])
          ∘ Nat.succ)
        = (fun k => [BuildEvent.invoke ((idx + 1) + k), BuildEvent.complete ((idx + 1) + k)]) := by
      funext k
      have h : idx + Nat.succ k = (idx + 1) + k := by omega
      simp only [Function.comp_apply, h]
    rw [hfun]
    simp

/-- When every layer type resolves in the registry, the construction loop
emits exactly the sequential event list. -/
lemma buildLoop_events_of_valid (r : RandomState) (width height : ℚ) :
    ∀ (layers : List Layer) (idx : ℕ),
      (∀ l ∈ layers, (lookupCreateFunc r width height l).isSome = true) →
      (buildLoop r width height layers idx).1 = seqEvents layers.length idx := by
  intro layers
  induction layers with
  | nil => intro idx hv; simp [buildLoop, seqEvents]
  | cons l rest ih =>
    intro idx hv
    obtain ⟨fs, hfs⟩ := Option.isSome_iff_exists.mp (hv l (List.mem_cons_self l rest))
    have htail := ih (idx + 1) (fun x hx => hv x (List.mem_cons_of_mem l hx))
    simp only [buildLoop, hfs, List.length_cons, seqEvents]
    rw [htail]

/-- When every layer type resolves in the registry, construction succeeds
and yields one source per layer, in layer order. -/
lemma buildLoop_ok_of_valid (r : RandomState) (width height : ℚ) :
    ∀ (layers : List Layer) (idx : ℕ),
      (∀ l ∈ layers, (lookupCreateFunc r width height l).isSome = true) →
      ∃ srcs, (buildLoop r width height layers idx).2 = Except.ok srcs ∧
        srcs.map Prod.fst = layers := by
  intro layers
  induction layers with
  | nil => intro idx hv; exact ⟨[], rfl, rfl⟩
  | cons l rest ih =>
    intro idx hv
    obtain ⟨fs, hfs⟩ := Option.isSome_iff_exists.mp (hv l (List.mem_cons_self l rest))
    obtain ⟨srcs, hok, hmap⟩ := ih (idx + 1) (fun x hx => hv x (List.mem_cons_of_mem l hx))
    refine ⟨(l, fs) :: srcs, ?_, by simp [hmap]⟩
    simp only [buildLoop, hfs, hok]

/-- A visual layer whose type resolves nowhere makes the construction loop
fail with the Invalid type error of the first such layer. -/
lemma buildLoop_error (r : RandomState) (width height : ℚ) :
    ∀ (layers : List Layer) (idx : ℕ) (l : Layer),
      l ∈ layers → lookupCreateFunc r width height l = none →
      ∃ ty, (buildLoop r width height layers idx).2 =
          Except.error ("Invalid type " ++ ty) ∧
        ∃ l2, l2 ∈ layers ∧ l2.type = ty ∧
          lookupCreateFunc r width height l2 = none := by
  intro layers
  induction layers with
  | nil => intro idx l hmem; cases hmem
  | cons l0 rest ih =>
    intro idx l hmem hnone
    cases hl0 : lookupCreateFunc r width height l0 with
    | none =>
      exact ⟨l0.type, by simp [buildLoop, hl0],
        l0, List.mem_cons_self l0 rest, rfl, hl0⟩
    | some fs =>
      have hlrest : l ∈ rest := by
        rcases List.mem_cons.mp hmem with rfl | h
        · rw [hl0] at hnone; cases hnone
        · exact h
      obtain ⟨ty, herr, l2, hl2mem, hl2ty, hl2none⟩ := ih (idx + 1) l hlrest hnone
      refine ⟨ty, ?_, l2, List.mem_cons_of_mem _ hl2mem, hl2ty, hl2none⟩
      simp only [buildLoop, hl0, herr]

/-- The spawn loop starts every mapper: the recorded invocation indices are
the positions of all list elements, shifted by the running index. -/
lemma spawnAll_fst : ∀ (ms : List (Unit → Except String Unit)) (idx : ℕ),
    (spawnAll ms idx).1 = (List.range ms.length).map (fun k => idx + k) := by
  intro ms
  induction ms with
  | nil => intro idx; simp [spawnAll]
  | cons m rest ih =>
    intro idx
    have hfun : ((fun k => idx + k) ∘ Nat.succ) = (fun k => (idx + 1) + k) := by
      funext k
      simp only [Function.comp_apply]
      omega
    simp only [spawnAll, List.length_cons]
    rw [ih (idx + 1), List.range_succ_eq_map]
    simp only [List.map_cons, Nat.add_zero, List.map_map, hfun]

/-- The spawn loop settles to the mapped results in order. -/
lemma spawnAll_snd : ∀ (ms : List (Unit → Except String Unit)) (idx : ℕ),
    (spawnAll ms idx).2 = ms.map (fun m => m ()) := by
  intro ms
  induction ms with
  | nil => intro idx; simp [spawnAll]
  | cons m rest ih => intro idx; simp [spawnAll, ih (idx + 1)]

/-- If any settled result is a rejection, the aggregate settles to a
rejection. -/
lemma aggregateResults_error : ∀ (rs : List (Except String Unit)),
    (∃ e, Except.error e ∈ rs) → ∃ e2, aggregateResults rs = Except.error e2 := by
  intro rs
  induction rs with
  | nil => rintro ⟨e, he⟩; cases he
  | cons hd tl ih =>
    rintro ⟨e, he⟩
    cases hd with
    | error e0 => exact ⟨e0, rfl⟩
    | ok u =>
      cases u
      rcases List.mem_cons.mp he with heq | h
      · simp at heq
      · simpa [aggregateResults] using ih ⟨e, h⟩

/-! ### Evaluation facts about the concrete fixtures -/

/-- The example fill layer has positive duration. -/
lemma fillLayer_dur_pos : 0 < fillLayer.layerDuration := by norm_num [fillLayer]

/-- The example fill layer is active at time 5. -/
lemma fillLayer_active_at_5 : shouldDrawLayer fillLayer 5 = true := by
  rw [shouldDraw_iff_of_pos fillLayer 5 fillLayer_dur_pos]
  norm_num [offsetProgress, fillLayer]

/-- The second fill layer starts only at time 2, so it is inactive at 1. -/
lemma fillLayer2_inactive_at_1 : shouldDrawLayer fillLayer2 1 = false :=
  shouldDraw_before_start fillLayer2 1 (by norm_num [fillLayer2]) (by norm_num [fillLayer2])

/-- The single-layer fixture is active at time 5. -/
lemma c1SingleLayer_active : shouldDrawLayer c1SingleLayer 5 = true := by
  rw [shouldDraw_iff_of_pos c1SingleLayer 5 (by norm_num [c1SingleLayer])]
  norm_num [offsetProgress, c1SingleLayer]

/-- The first layer of the two-layer fixture is active at time 0. -/
lemma c1LayerA_active : shouldDrawLayer c1LayerA 0 = true := by
  rw [shouldDraw_iff_of_pos c1LayerA 0 (by norm_num [c1LayerA])]
  norm_num [offsetProgress, c1LayerA]

/-- The second layer of the two-layer fixture starts at 100, inactive at 0. -/
lemma c1LayerB_inactive : shouldDrawLayer c1LayerB 0 = false :=
  shouldDraw_before_start c1LayerB 0 (by norm_num [c1LayerB]) (by norm_num [c1LayerB])

/-- The two-layer engine at time 0: the active buffer is wrapped as an
image, the object list is serialized, and the canvas is rasterized. -/
lemma c1_readNextFrame_eval :
    readNextFrame 1 1 c1Srcs 0 none =
      (FrameOutcome.changed (renderFabricCanvas 1 1 [CObj.image c1Buf])
          (stringifyObjects [CObj.image c1Buf]),
        [FrameOp.createCanvas, FrameOp.renderSource 0 (offsetProgress c1LayerA 0),
         FrameOp.addImage c1Buf, FrameOp.serialize, FrameOp.rasterize]) := by
  simp [readNextFrame, c1Srcs, composeLoop, c1LayerA_active, c1LayerB_inactive,
    bufferSource, createFabricCanvas, cacheHit]

/-- The negative-duration layer has nonpositive duration. -/
lemma negDur_nonpos : negDurLayer.layerDuration ≤ 0 := by norm_num [negDurLayer]

/-- The negative-duration layer passes the activation test at its start
instant: JavaScript evaluates (0 - 0) / (-1) to a zero, which lies in the
inclusive unit interval. -/
lemma negDur_active : shouldDrawLayer negDurLayer 0 = true := by
  have h1 : offsetProgressJS negDurLayer 0 = JSNum.fin 0 := by
    rw [offsetProgressJS, jsDiv]
    norm_num [negDurLayer]
  rw [shouldDrawLayer, h1]
  norm_num [jsGe0, jsLe1]

/-- The engine holding only the negative-duration layer renders it at its
start instant. -/
lemma negDur_readNextFrame_eval :
    readNextFrame 1 1 negDurSrcs 0 none =
      (FrameOutcome.changed (renderFabricCanvas 1 1 [CObj.rect 0 0 1 1 "red"])
          (stringifyObjects [CObj.rect 0 0 1 1 "red"]),
        [FrameOp.createCanvas, FrameOp.renderSource 0 (offsetProgress negDurLayer 0),
         FrameOp.serialize, FrameOp.rasterize]) := by
  have hred : ("red" == "") = false := rfl
  have hparams : negDurLayer.params = { color := some "red" } := rfl
  simp [readNextFrame, negDurSrcs, composeLoop, negDur_active, fillColorFrameSource,
    jsOrString, hparams, getRandomColors, hred, createFabricCanvas, cacheHit]

/-! ### The specified properties -/

/-- C1 (amended): the fast path is keyed to the engine holding exactly one
constructed visual layer (layerFrameSources.length equal to 1), not to
exactly one layer being active in the frame.  When the engine holds one
layer, that layer is active, and its render returns a raw buffer, then
readNextFrame returns that buffer unmodified as the bare result, the canvas
is never rasterized, and no cache key is computed or compared. -/
theorem c1_fast_path (width height : ℕ) (layer : Layer) (fs : FrameSource)
    (t : ℚ) (canvas2 : List CObj) (buf : Buffer) (last : Option String)
    (hdraw : shouldDrawLayer layer t = true)
    (hrender : fs.render (offsetProgress layer t) createFabricCanvas = (canvas2, some buf)) :
    readNextFrame width height [(layer, fs)] t last =
      (FrameOutcome.fastPath buf,
        [FrameOp.createCanvas, FrameOp.renderSource 0 (offsetProgress layer t)]) := by
  rw [readNextFrame]
  have hlen : ([(layer, fs)] : List (Layer × FrameSource)).length = 1 := rfl
  rw [hlen]
  simp [composeLoop, hdraw, hrender]

/-- C1 witness: a one-layer engine with an active buffer-returning source
takes the fast path and performs neither serialization nor rasterization. -/
theorem c1_witness :
    shouldDrawLayer c1SingleLayer 5 = true ∧
    c1SingleSrc.render (offsetProgress c1SingleLayer 5) createFabricCanvas =
      (createFabricCanvas, some ["v"]) ∧
    readNextFrame 4 4 [(c1SingleLayer, c1SingleSrc)] 5 none =
      (FrameOutcome.fastPath ["v"],
        [FrameOp.createCanvas, FrameOp.renderSource 0 (offsetProgress c1SingleLayer 5)]) :=
  ⟨c1SingleLayer_active, rfl,
    c1_fast_path 4 4 c1SingleLayer c1SingleSrc 5 createFabricCanvas ["v"] none
      c1SingleLayer_active rfl⟩

/-- C1 counterexample: in a two-layer engine of which exactly one layer is
active at time 0 and the active source returns a raw buffer, readNextFrame
does not return that buffer unmodified; it wraps it, serializes the object
list, and rasterizes the canvas. -/
theorem c1_counterexample :
    shouldDrawLayer c1LayerA 0 = true ∧
    shouldDrawLayer c1LayerB 0 = false ∧
    (bufferSource c1Buf).render (offsetProgress c1LayerA 0) createFabricCanvas =
      (createFabricCanvas, some c1Buf) ∧
    (readNextFrame 1 1 c1Srcs 0 none).1 ≠ FrameOutcome.fastPath c1Buf ∧
    FrameOp.rasterize ∈ (readNextFrame 1 1 c1Srcs 0 none).2 ∧
    FrameOp.serialize ∈ (readNextFrame 1 1 c1Srcs 0 none).2 := by
  refine ⟨c1LayerA_active, c1LayerB_inactive, rfl, ?_, ?_, ?_⟩ <;>
    rw [c1_readNextFrame_eval] <;> simp

/-- C3: for a layer with positive duration, the layer is active (its render
is invoked) exactly when offsetProgress lies in the inclusive unit interval;
offsetProgress is exactly 0 at the start instant and exactly 1 at the end
instant of the window; and in any engine the render event carries exactly
that offsetProgress value. -/
theorem c3_activation_window (layer : Layer) (t : ℚ)
    (hd : 0 < layer.layerDuration) :
    (shouldDrawLayer layer t = true ↔
      (0 ≤ offsetProgress layer t ∧ offsetProgress layer t ≤ 1)) ∧
    (t = layer.start → offsetProgress layer t = 0) ∧
    (t = layer.start + layer.layerDuration → offsetProgress layer t = 1) ∧
    (∀ (width height : ℕ) (srcs : List (Layer × FrameSource))
       (last : Option String) (i : ℕ) (fs : FrameSource),
       srcs.get? i = some (layer, fs) →
       (FrameOp.renderSource i (offsetProgress layer t) ∈
           (readNextFrame width height srcs t last).2 ↔
         shouldDrawLayer layer t = true)) := by
  refine ⟨shouldDraw_iff_of_pos layer t hd, ?_, ?_, ?_⟩
  · rintro rfl
    exact offsetProgress_at_start layer
  · rintro rfl
    exact offsetProgress_at_end layer (ne_of_gt hd)
  · intro width height srcs last i fs hget
    exact readNextFrame_renders_iff width height srcs t last i layer fs hget

/-- C3 witness: the activation window facts instantiated at a concrete
layer with start 0 and duration 10, at time 5. -/
theorem c3_witness :
    0 < fillLayer.layerDuration ∧
    ((shouldDrawLayer fillLayer 5 = true ↔
      (0 ≤ offsetProgress fillLayer 5 ∧ offsetProgress fillLayer 5 ≤ 1)) ∧
    (5 = fillLayer.start → offsetProgress fillLayer 5 = 0) ∧
    (5 = fillLayer.start + fillLayer.layerDuration → offsetProgress fillLayer 5 = 1) ∧
    (∀ (width height : ℕ) (srcs : List (Layer × FrameSource))
       (last : Option String) (i : ℕ) (fs : FrameSource),
       srcs.get? i = some (fillLayer, fs) →
       (FrameOp.renderSource i (offsetProgress fillLayer 5) ∈
           (readNextFrame width height srcs 5 last).2 ↔
         shouldDrawLayer fillLayer 5 = true))) :=
  ⟨fillLayer_dur_pos, c3_activation_window fillLayer 5 fillLayer_dur_pos⟩

/-- C4 (amended): a layer with duration exactly 0 never has its render
invoked (the JavaScript offsetProgress is NaN or infinite); a layer with
positive duration starting after the requested time never has its render
invoked; and an inactive layer produces no render event in any engine.
With a negative duration a layer can still render (see the
counterexample). -/
theorem c4_inactive_layers (layer : Layer) (t : ℚ) :
    (layer.layerDuration = 0 → shouldDrawLayer layer t = false) ∧
    (0 < layer.layerDuration → t < layer.start → shouldDrawLayer layer t = false) ∧
    (shouldDrawLayer layer t = false →
      ∀ (width height : ℕ) (srcs : List (Layer × FrameSource))
        (last : Option String) (i : ℕ) (fs : FrameSource) (p : ℚ),
        srcs.get? i = some (layer, fs) →
        FrameOp.renderSource i p ∉ (readNextFrame width height srcs t last).2) := by
  refine ⟨shouldDraw_zero_dur layer t, shouldDraw_before_start layer t, ?_⟩
  intro hoff width height srcs last i fs p hget hmem
  obtain ⟨layer2, fs2, hget2, hdraw2, hp⟩ :=
    readNextFrame_renders_sound width height srcs t last i p hmem
  rw [hget, Option.some_inj] at hget2
  have hl : layer = layer2 := congrArg Prod.fst hget2
  rw [← hl, hoff] at hdraw2
  exact Bool.false_ne_true hdraw2

/-- C4 witness: a zero-duration layer and a positive-duration layer starting
beyond the requested time are both inactive, and the inactive layer of a
concrete engine produces no render event. -/
theorem c4_witness :
    ((fillLayer2.layerDuration = 0 → shouldDrawLayer fillLayer2 1 = false) ∧
      (0 < fillLayer2.layerDuration → (1 : ℚ) < fillLayer2.start →
        shouldDrawLayer fillLayer2 1 = false)) ∧
    shouldDrawLayer fillLayer2 1 = false ∧
    FrameOp.renderSource 1 (offsetProgress fillLayer2 1) ∉
      (readNextFrame 1 1 [(fillLayer, okCloseSource), (fillLayer2, okCloseSource)] 1 none).2 :=
  ⟨⟨(c4_inactive_layers fillLayer2 1).1, (c4_inactive_layers fillLayer2 1).2.1⟩,
   fillLayer2_inactive_at_1,
   (c4_inactive_layers fillLayer2 1).2.2 fillLayer2_inactive_at_1 1 1
     [(fillLayer, okCloseSource), (fillLayer2, okCloseSource)] none 1 okCloseSource
     (offsetProgress fillLayer2 1) rfl⟩

/-- C4 counterexample: a layer with negative duration (hence layerDuration
at most 0) passes the activation test at its start instant, and its render
is invoked there by the engine. -/
theorem c4_counterexample :
    negDurLayer.layerDuration ≤ 0 ∧
    shouldDrawLayer negDurLayer 0 = true ∧
    FrameOp.renderSource 0 (offsetProgress negDurLayer 0) ∈
      (readNextFrame 1 1 negDurSrcs 0 none).2 := by
  refine ⟨negDur_nonpos, negDur_active, ?_⟩
  rw [negDur_readNextFrame_eval]
  simp

/-- The fill layer of the cache fixture is active at time 0. -/
lemma c2_active_at_0 : shouldDrawLayer fillLayer 0 = true := by
  rw [shouldDraw_iff_of_pos fillLayer 0 fillLayer_dur_pos]
  norm_num [offsetProgress, fillLayer]

/-- The fill layer of the cache fixture is active at time 1. -/
lemma c2_active_at_1 : shouldDrawLayer fillLayer 1 = true := by
  rw [shouldDraw_iff_of_pos fillLayer 1 fillLayer_dur_pos]
  norm_num [offsetProgress, fillLayer]

/-- The cache fixture engine builds the same one-rectangle object list at
time 0. -/
lemma c2_composeCanvas_0 : composeCanvas c2Srcs 0 = some c2L := by
  have hred : ("red" == "") = false := rfl
  simp [composeCanvas, c2Srcs, composeLoop, c2_active_at_0, fillColorFrameSource,
    jsOrString, hred, getRandomColors, createFabricCanvas, c2L]

/-- The cache fixture engine builds the same one-rectangle object list at
time 1. -/
lemma c2_composeCanvas_1 : composeCanvas c2Srcs 1 = some c2L := by
  have hred : ("red" == "") = false := rfl
  simp [composeCanvas, c2Srcs, composeLoop, c2_active_at_1, fillColorFrameSource,
    jsOrString, hred, getRandomColors, createFabricCanvas, c2L]

/-- C2: two readNextFrame calls at distinct times that build identical
canvas object lists, with the key of the first supplied to the second: the
first call (no key supplied, its first occurrence) returns a freshly
rasterized changed result, the second returns the unchanged sentinel with
the same key, does not rasterize, and clears and disposes the canvas
instead. -/
theorem c2_cache_idempotence (width height : ℕ) (srcs : List (Layer × FrameSource))
    (t1 t2 : ℚ) (L : List CObj) (hne : t1 ≠ t2)
    (h1 : composeCanvas srcs t1 = some L) (h2 : composeCanvas srcs t2 = some L) :
    (readNextFrame width height srcs t1 none).1 =
      FrameOutcome.changed (renderFabricCanvas width height L) (stringifyObjects L) ∧
    (readNextFrame width height srcs t2 (some (stringifyObjects L))).1 =
      FrameOutcome.unchanged (stringifyObjects L) ∧
    FrameOp.rasterize ∉ (readNextFrame width height srcs t2 (some (stringifyObjects L))).2 ∧
    FrameOp.clear ∈ (readNextFrame width height srcs t2 (some (stringifyObjects L))).2 ∧
    FrameOp.dispose ∈ (readNextFrame width height srcs t2 (some (stringifyObjects L))).2 := by
  rw [composeCanvas] at h1 h2
  rcases hc1 : composeLoop srcs.length t1 srcs 0 createFabricCanvas with ⟨res1, ops1⟩
  rcases hc2 : composeLoop srcs.length t2 srcs 0 createFabricCanvas with ⟨res2, ops2⟩
  rw [hc1] at h1
  rw [hc2] at h2
  cases res1 with
  | inr b => simp at h1
  | inl canvas1 =>
    cases res2 with
    | inr b => simp at h2
    | inl canvas2 =>
      simp only [Option.some_inj] at h1 h2
      subst h1
      subst h2
      have hnr : FrameOp.rasterize ∉ ops2 := by
        have h := composeLoop_no_rasterize srcs.length t2 srcs 0 createFabricCanvas
        rw [hc2] at h
        exact h
      refine ⟨?_, ?_, ?_, ?_, ?_⟩
      · rw [readNextFrame, hc1]
        simp [cacheHit]
      · rw [readNextFrame, hc2]
        simp [cacheHit_self _ (stringifyObjects_ne_empty _)]
      · rw [readNextFrame, hc2]
        simp [cacheHit_self _ (stringifyObjects_ne_empty _), hnr]
      · rw [readNextFrame, hc2]
        simp [cacheHit_self _ (stringifyObjects_ne_empty _)]
      · rw [readNextFrame, hc2]
        simp [cacheHit_self _ (stringifyObjects_ne_empty _)]

/-- C2 witness: a fill-color engine builds the same object list at times 0
and 1; the first call rasterizes, the second call with the first call's key
returns the sentinel without rasterizing. -/
theorem c2_witness :
    ((0 : ℚ) ≠ 1) ∧
    composeCanvas c2Srcs 0 = some c2L ∧
    composeCanvas c2Srcs 1 = some c2L ∧
    ((readNextFrame 1 1 c2Srcs 0 none).1 =
        FrameOutcome.changed (renderFabricCanvas 1 1 c2L) (stringifyObjects c2L) ∧
      (readNextFrame 1 1 c2Srcs 1 (some (stringifyObjects c2L))).1 =
        FrameOutcome.unchanged (stringifyObjects c2L) ∧
      FrameOp.rasterize ∉ (readNextFrame 1 1 c2Srcs 1 (some (stringifyObjects c2L))).2 ∧
      FrameOp.clear ∈ (readNextFrame 1 1 c2Srcs 1 (some (stringifyObjects c2L))).2 ∧
      FrameOp.dispose ∈ (readNextFrame 1 1 c2Srcs 1 (some (stringifyObjects c2L))).2) :=
  ⟨by norm_num, c2_composeCanvas_0, c2_composeCanvas_1,
    c2_cache_idempotence 1 1 c2Srcs 0 1 c2L (by norm_num)
      c2_composeCanvas_0 c2_composeCanvas_1⟩

/-- C10 (amended): the fill-color source draws its fallback color exactly
once at construction; every render adds one full-frame rectangle whose fill
never varies with progress, so the drawn content is identical across all
progress values; the fill equals the supplied color parameter whenever that
parameter is truthy (non-empty) — an empty string falls back to the random
color, see the counterexample. -/
theorem c10_fill_color (r : RandomState) (params : FillParams) (width height : ℚ) :
    (params.color = none →
      ∀ (p : ℚ) (canvas : List CObj),
        (fillColorFrameSource r params width height).render p canvas =
          (canvas ++ [CObj.rect 0 0 width height ((getRandomColors r 1).headD "")], none)) ∧
    (∀ (p1 p2 : ℚ) (canvas : List CObj),
      (fillColorFrameSource r params width height).render p1 canvas =
        (fillColorFrameSource r params width height).render p2 canvas) ∧
    (∀ (p1 p2 : ℚ),
      stringifyObjects ((fillColorFrameSource r params width height).render p1 createFabricCanvas).1 =
        stringifyObjects ((fillColorFrameSource r params width height).render p2 createFabricCanvas).1) ∧
    (∀ s, params.color = some s → s ≠ "" →
      ∀ (p : ℚ) (canvas : List CObj),
        (fillColorFrameSource r params width height).render p canvas =
          (canvas ++ [CObj.rect 0 0 width height s], none)) := by
  refine ⟨?_, ?_, ?_, ?_⟩
  · intro hc p canvas
    simp [fillColorFrameSource, jsOrString, hc]
  · intro p1 p2 canvas
    rfl
  · intro p1 p2
    rfl
  · intro s hc hs p canvas
    have hbeq : (s == "") = false := by simp [hs]
    simp [fillColorFrameSource, jsOrString, hc, hbeq]

/-- C10 witness: without a color the construction-time random draw is used
at every progress value; with a truthy color that color is used. -/
theorem c10_witness :
    ((⟨none⟩ : FillParams).color = none ∧
      (fillColorFrameSource ⟨"z"⟩ ⟨none⟩ 2 2).render 0 [] =
        ([CObj.rect 0 0 2 2 ((getRandomColors ⟨"z"⟩ 1).headD "")], none)) ∧
    ((⟨some "c"⟩ : FillParams).color = some "c" ∧ "c" ≠ "" ∧
      (fillColorFrameSource ⟨"z"⟩ ⟨some "c"⟩ 2 2).render (1/2) [] =
        ([CObj.rect 0 0 2 2 "c"], none)) :=
  ⟨⟨rfl, by
      have h := (c10_fill_color ⟨"z"⟩ ⟨none⟩ 2 2).1 rfl 0 []
      simpa using h⟩,
   ⟨rfl, by decide, by
      have h := (c10_fill_color ⟨"z"⟩ ⟨some "c"⟩ 2 2).2.2.2 "c" rfl (by decide) (1/2) []
      simpa using h⟩⟩

/-- C10 counterexample: a supplied empty-string color is falsy in
JavaScript, so the rectangle fill is the random fallback, not the supplied
parameter. -/
theorem c10_counterexample :
    (fillColorFrameSource ⟨"rnd"⟩ ⟨some ""⟩ 2 2).render 0 [] =
      ([CObj.rect 0 0 2 2 "rnd"], none) ∧
    "rnd" ≠ "" :=
  ⟨rfl, by decide⟩

/-- The fill-color source ignores the random draw whenever a truthy color
parameter is supplied, regardless of how the params record is built. -/
lemma fillColorFrameSource_indep2 (r1 r2 : RandomState) (params : FillParams)
    (s : String) (hcol : params.color = some s) (hs : s ≠ "")
    (width height : ℚ) :
    fillColorFrameSource r1 params width height =
      fillColorFrameSource r2 params width height := by
  have hbeq : (s == "") = false := by simp [hs]
  rw [fillColorFrameSource, fillColorFrameSource]
  simp [jsOrString, hcol, hbeq]

/-- Registry lookup for a fill-color layer with a truthy color does not
depend on the random draw. -/
lemma lookupCreateFunc_indep (r1 r2 : RandomState) (width height : ℚ)
    (l : Layer) (hty : l.type = "fill-color") (s : String)
    (hcol : l.params.color = some s) (hs : s ≠ "") :
    lookupCreateFunc r1 width height l = lookupCreateFunc r2 width height l := by
  have hcont : fabricSourceTypes.contains l.type = true := by rw [hty]; rfl
  have hbeq : (l.type == "fill-color") = true := by rw [hty]; rfl
  rw [lookupCreateFunc, lookupCreateFunc]
  simp only [hcont, if_true, hbeq]
  rw [fillColorFrameSource_indep2 r1 r2 l.params s hcol hs width height]

/-- Construction over layers that are all fill-color with truthy colors
does not depend on the random draw. -/
lemma buildLoop_indep (r1 r2 : RandomState) (width height : ℚ) :
    ∀ (layers : List Layer) (idx : ℕ),
      (∀ l ∈ layers, l.type = "fill-color" ∧
        ∃ s, l.params.color = some s ∧ s ≠ "") →
      buildLoop r1 width height layers idx = buildLoop r2 width height layers idx := by
  intro layers
  induction layers with
  | nil => intro idx hv; rfl
  | cons l rest ih =>
    intro idx hv
    obtain ⟨hty, s, hcol, hs⟩ := hv l (List.mem_cons_self l rest)
    have hlook : lookupCreateFunc r1 width height l = lookupCreateFunc r2 width height l :=
      lookupCreateFunc_indep r1 r2 width height l hty s hcol hs
    have htail := ih (idx + 1) (fun x hx => hv x (List.mem_cons_of_mem l hx))
    simp only [buildLoop, hlook, htail]

/-- Engine construction over truthy fill-color clips does not depend on the
random draw. -/
lemma createFrameSource_indep (r1 r2 : RandomState) (width height : ℚ) (clip : Clip)
    (hcolors : ∀ l ∈ clip.layers, l.type = "fill-color" ∧
      ∃ s, l.params.color = some s ∧ s ≠ "") :
    createFrameSource r1 width height clip = createFrameSource r2 width height clip := by
  rw [createFrameSource, createFrameSource]
  exact buildLoop_indep r1 r2 width height (visualLayers clip) 0
    (fun l hl => hcolors l (List.mem_filter.mp hl).1)

/-- C5 (amended): determinism holds when every layer pins down its visual
parameters — here, when every fill-color layer supplies a truthy color.
Two independent runs (fresh construction, hence fresh random draws) then
produce identical output at every requested time.  Without an explicit
color the fill-color source draws a random fallback at construction, so
fresh runs can differ byte-for-byte (see the counterexample). -/
theorem c5_determinism (width height : ℕ) (r1 r2 : RandomState) (clip : Clip)
    (t : ℚ) (last : Option String)
    (hcolors : ∀ l ∈ clip.layers, l.type = "fill-color" ∧
      ∃ s, l.params.color = some s ∧ s ≠ "") :
    runEngine r1 width height clip t last = runEngine r2 width height clip t last := by
  have h := createFrameSource_indep r1 r2 (width : ℚ) (height : ℚ) clip hcolors
  simp only [runEngine, h]

/-- C5 witness: two runs with different random draws over an explicit-color
clip agree. -/
theorem c5_witness :
    (∀ l ∈ redClip.layers, l.type = "fill-color" ∧
      ∃ s, l.params.color = some s ∧ s ≠ "") ∧
    runEngine ⟨"a"⟩ 1 1 redClip 5 none = runEngine ⟨"b"⟩ 1 1 redClip 5 none := by
  have hcol : ∀ l ∈ redClip.layers, l.type = "fill-color" ∧
      ∃ s, l.params.color = some s ∧ s ≠ "" := by
    intro l hl
    have hl2 : l = fillLayer := by simpa [redClip] using hl
    subst hl2
    exact ⟨rfl, "red", rfl, by decide⟩
  exact ⟨hcol, c5_determinism 1 1 ⟨"a"⟩ ⟨"b"⟩ redClip 5 none hcol⟩

/-- The no-color layer is active at time 5. -/
lemma noColor_active_at_5 : shouldDrawLayer noColorLayer 5 = true := by
  rw [shouldDraw_iff_of_pos noColorLayer 5 (by norm_num [noColorLayer])]
  norm_num [offsetProgress, noColorLayer]

/-- Constructing the no-color clip yields the fill-color source built from
the random draw. -/
lemma createFrameSource_noColor (r : RandomState) :
    (createFrameSource r ((1 : ℕ) : ℚ) ((1 : ℕ) : ℚ) noColorClip).2 =
      Except.ok [(noColorLayer,
        fillColorFrameSource r noColorLayer.params ((1 : ℕ) : ℚ) ((1 : ℕ) : ℚ))] := rfl

/-- A run over the no-color clip composes one full-frame rectangle filled
with the construction-time random draw. -/
lemma runEngine_noColor (r : RandomState) :
    runEngine r 1 1 noColorClip 5 none =
      some (FrameOutcome.changed
        (renderFabricCanvas 1 1 [CObj.rect 0 0 1 1 r.draw])
        (stringifyObjects [CObj.rect 0 0 1 1 r.draw])) := by
  have hparams : noColorLayer.params = { color := none } := rfl
  simp only [runEngine, createFrameSource_noColor r]
  simp [readNextFrame, composeLoop, noColor_active_at_5, fillColorFrameSource,
    hparams, jsOrString, getRandomColors, createFabricCanvas, cacheHit]

/-- The 1 by 1 rasterization of one full-frame rectangle is its fill. -/
lemma renderFabricCanvas_one_rect (c : String) :
    renderFabricCanvas 1 1 [CObj.rect 0 0 1 1 c] = [c] := by
  have hcov : pixelAt 1 0 0 (CObj.rect 0 0 1 1 c) = some c := by
    norm_num [pixelAt]
  simp [renderFabricCanvas, rasterizePixel, List.range_succ, hcov]

/-- C5 counterexample: two independent runs over the same no-color clip,
differing only in the construction-time random draw, give rasterized
buffers that differ byte-for-byte. -/
theorem c5_counterexample :
    runEngine ⟨"red"⟩ 1 1 noColorClip 5 none ≠
      runEngine ⟨"blue"⟩ 1 1 noColorClip 5 none := by
  rw [runEngine_noColor ⟨"red"⟩, runEngine_noColor ⟨"blue"⟩,
    renderFabricCanvas_one_rect "red", renderFabricCanvas_one_rect "blue"]
  intro h
  simp only [Option.some_inj, FrameOutcome.changed.injEq] at h
  exact absurd h.1 (by decide)

/-- C6 (amended): a non-audio layer whose type tag resolves to no factory
makes the whole construction fail with an Invalid type error naming the
first such layer, and no frame is ever composed; audio layers, however, are
filtered out before the registry is consulted, so an audio layer never
triggers this error (see the counterexample). -/
theorem c6_invalid_type (r : RandomState) (width height : ℕ) (clip : Clip)
    (l : Layer) (hmem : l ∈ visualLayers clip)
    (hinv : lookupCreateFunc r (width : ℚ) (height : ℚ) l = none) :
    (∃ ty, (createFrameSource r (width : ℚ) (height : ℚ) clip).2 =
        Except.error ("Invalid type " ++ ty) ∧
      ∃ l2, l2 ∈ visualLayers clip ∧ l2.type = ty ∧
        lookupCreateFunc r (width : ℚ) (height : ℚ) l2 = none) ∧
    (∀ (t : ℚ) (last : Option String), runEngine r width height clip t last = none) := by
  obtain ⟨ty, herr, hwit⟩ :=
    buildLoop_error r ↑width ↑height (visualLayers clip) 0 l hmem hinv
  constructor
  · exact ⟨ty, by rw [createFrameSource]; exact herr, hwit⟩
  · intro t last
    have herr2 : (createFrameSource r (width : ℚ) (height : ℚ) clip).2 =
        Except.error ("Invalid type " ++ ty) := by
      rw [createFrameSource]; exact herr
    simp only [runEngine, herr2]

/-- C6 witness: a clip holding only an unknown-type layer fails construction
with the Invalid type error, and no frame is ever composed from it. -/
theorem c6_witness :
    bogusLayer ∈ visualLayers bogusClip ∧
    lookupCreateFunc ⟨"z"⟩ ((1 : ℕ) : ℚ) ((1 : ℕ) : ℚ) bogusLayer = none ∧
    ((∃ ty, (createFrameSource ⟨"z"⟩ ((1 : ℕ) : ℚ) ((1 : ℕ) : ℚ) bogusClip).2 =
        Except.error ("Invalid type " ++ ty) ∧
      ∃ l2, l2 ∈ visualLayers bogusClip ∧ l2.type = ty ∧
        lookupCreateFunc ⟨"z"⟩ ((1 : ℕ) : ℚ) ((1 : ℕ) : ℚ) l2 = none) ∧
    (∀ (t : ℚ) (last : Option String), runEngine ⟨"z"⟩ 1 1 bogusClip t last = none)) :=
  ⟨by simp [visualLayers, bogusClip, bogusLayer], rfl,
    c6_invalid_type ⟨"z"⟩ 1 1 bogusClip bogusLayer
      (by simp [visualLayers, bogusClip, bogusLayer]) rfl⟩

/-- C6 counterexample: an audio layer matches no registered factory, yet a
clip containing it constructs successfully (the layer is silently filtered
out) and frames are composed, refuting the claim that any layer with an
unregistered type aborts construction. -/
theorem c6_counterexample :
    lookupCreateFunc ⟨"z"⟩ ((1 : ℕ) : ℚ) ((1 : ℕ) : ℚ) audioLayer = none ∧
    exceptOk (createFrameSource ⟨"z"⟩ ((1 : ℕ) : ℚ) ((1 : ℕ) : ℚ) audioClip).2 = true ∧
    runEngine ⟨"z"⟩ 1 1 audioClip 5 none ≠ none := by
  refine ⟨rfl, rfl, ?_⟩
  have hok : (createFrameSource ⟨"z"⟩ ((1 : ℕ) : ℚ) ((1 : ℕ) : ℚ) audioClip).2 =
      Except.ok [(fillLayer,
        fillColorFrameSource ⟨"z"⟩ fillLayer.params ((1 : ℕ) : ℚ) ((1 : ℕ) : ℚ))] := rfl
  simp only [runEngine, hok]
  simp

/-- C7: closing the engine invokes close on every constructed source, even
when the close of the source at any position M rejects; the aggregate
close call itself rejects. -/
theorem c7_close_all (srcs : List (Layer × FrameSource)) (M : ℕ)
    (layer : Layer) (fs : FrameSource) (e : String)
    (hget : srcs.get? M = some (layer, fs))
    (herr : fs.close = Except.error e) :
    (closeAll srcs).1 = List.range srcs.length ∧
    ∃ e2, (closeAll srcs).2 = Except.error e2 := by
  constructor
  · simp only [closeAll]
    rw [spawnAll_fst]
    simp
  · simp only [closeAll]
    apply aggregateResults_error
    rw [spawnAll_snd, List.map_map]
    refine ⟨e, ?_⟩
    exact List.mem_map.mpr ⟨(layer, fs), List.get?_mem hget, herr⟩

/-- C7 witness: a two-source engine whose second close rejects still has
close invoked on both sources, and the aggregate close rejects. -/
theorem c7_witness :
    c7Srcs.get? 1 = some (fillLayer, errCloseSource) ∧
    errCloseSource.close = Except.error "boom" ∧
    ((closeAll c7Srcs).1 = List.range c7Srcs.length ∧
      ∃ e2, (closeAll c7Srcs).2 = Except.error e2) :=
  ⟨rfl, rfl, c7_close_all c7Srcs 1 fillLayer errCloseSource "boom" rfl rfl⟩

/-- C8: layers render strictly in declared order (first is the bottom of
the z-order); a source returning nothing is taken to have drawn onto the
canvas, while a returned buffer (with more than one layer present) is
wrapped as an image drawable and added after the earlier objects; in the
rasterized frame the later drawable of B occludes the earlier objects of A
at every overlapping pixel. -/
theorem c8_zorder (width height : ℕ) (layA layB : Layer) (fsA fsB : FrameSource)
    (t : ℚ) (oA : List CObj) (bufB : Buffer)
    (hA : shouldDrawLayer layA t = true) (hB : shouldDrawLayer layB t = true)
    (hrA : ∀ canvas, fsA.render (offsetProgress layA t) canvas = (canvas ++ oA, none))
    (hrB : ∀ canvas, fsB.render (offsetProgress layB t) canvas = (canvas, some bufB)) :
    readNextFrame width height [(layA, fsA), (layB, fsB)] t none =
      (FrameOutcome.changed
          (renderFabricCanvas width height (oA ++ [CObj.image bufB]))
          (stringifyObjects (oA ++ [CObj.image bufB])),
        [FrameOp.createCanvas, FrameOp.renderSource 0 (offsetProgress layA t),
         FrameOp.renderSource 1 (offsetProgress layB t), FrameOp.addImage bufB,
         FrameOp.serialize, FrameOp.rasterize]) ∧
    (∀ x y, x < width → y < height →
      (renderFabricCanvas width height (oA ++ [CObj.image bufB])).getD (y * width + x) "" =
        bufB.getD (y * width + x) "") := by
  constructor
  · rw [readNextFrame]
    have hlen : ([(layA, fsA), (layB, fsB)] : List (Layer × FrameSource)).length = 2 := rfl
    rw [hlen]
    simp [composeLoop, hA, hB, hrA, hrB, createFabricCanvas, cacheHit]
  · intro x y hx hy
    rw [renderFabricCanvas_pixel width height _ x y hx hy,
      rasterizePixel_append_image]

/-- The lower z-order fixture layer is active at time 0. -/
lemma c8LayA_active : shouldDrawLayer c8LayA 0 = true := by
  rw [shouldDraw_iff_of_pos c8LayA 0 (by norm_num [c8LayA])]
  norm_num [offsetProgress, c8LayA]

/-- The upper z-order fixture layer is active at time 0. -/
lemma c8LayB_active : shouldDrawLayer c8LayB 0 = true := by
  rw [shouldDraw_iff_of_pos c8LayB 0 (by norm_num [c8LayB])]
  norm_num [offsetProgress, c8LayB]

/-- The lower fixture source appends exactly its red rectangle. -/
lemma c8SrcA_render : ∀ canvas, c8SrcA.render (offsetProgress c8LayA 0) canvas =
    (canvas ++ [CObj.rect 0 0 2 2 "red"], none) := fun _ => rfl

/-- The upper fixture source returns exactly its buffer. -/
lemma c8SrcB_render : ∀ canvas, c8SrcB.render (offsetProgress c8LayB 0) canvas =
    (canvas, some c8BufB) := fun _ => rfl

/-- C8 witness: the lower rectangle-drawing layer and the upper
buffer-returning layer composite in declared order, and the upper image
occludes the rectangle at every pixel of the 2 by 2 frame. -/
theorem c8_witness :
    shouldDrawLayer c8LayA 0 = true ∧
    shouldDrawLayer c8LayB 0 = true ∧
    (∀ canvas, c8SrcA.render (offsetProgress c8LayA 0) canvas =
      (canvas ++ [CObj.rect 0 0 2 2 "red"], none)) ∧
    (∀ canvas, c8SrcB.render (offsetProgress c8LayB 0) canvas =
      (canvas, some c8BufB)) ∧
    (readNextFrame 2 2 [(c8LayA, c8SrcA), (c8LayB, c8SrcB)] 0 none =
      (FrameOutcome.changed
          (renderFabricCanvas 2 2 ([CObj.rect 0 0 2 2 "red"] ++ [CObj.image c8BufB]))
          (stringifyObjects ([CObj.rect 0 0 2 2 "red"] ++ [CObj.image c8BufB])),
        [FrameOp.createCanvas, FrameOp.renderSource 0 (offsetProgress c8LayA 0),
         FrameOp.renderSource 1 (offsetProgress c8LayB 0), FrameOp.addImage c8BufB,
         FrameOp.serialize, FrameOp.rasterize]) ∧
      (∀ x y, x < 2 → y < 2 →
        (renderFabricCanvas 2 2 ([CObj.rect 0 0 2 2 "red"] ++ [CObj.image c8BufB])).getD
            (y * 2 + x) "" =
          c8BufB.getD (y * 2 + x) "")) :=
  ⟨c8LayA_active, c8LayB_active, c8SrcA_render, c8SrcB_render,
    c8_zorder 2 2 c8LayA c8LayB c8SrcA c8SrcB 0 [CObj.rect 0 0 2 2 "red"] c8BufB
      c8LayA_active c8LayB_active c8SrcA_render c8SrcB_render⟩

/-- C9: with every visual layer type resolving in the registry, frame
source construction emits exactly the strictly sequential event list —
invoke 0, complete 0, invoke 1, complete 1, and so on, so the factory for
layer i + 1 is only invoked after the factory for layer i completed — and
construction succeeds with one source per visual layer in layer order; the
engine composes frames only from the completed source list. -/
theorem c9_sequential_construction (r : RandomState) (width height : ℕ)
    (clip : Clip)
    (hvalid : ∀ l ∈ visualLayers clip,
      (lookupCreateFunc r (width : ℚ) (height : ℚ) l).isSome = true) :
    (createFrameSource r (width : ℚ) (height : ℚ) clip).1 =
      List.flatten ((List.range (visualLayers clip).length).map
        (fun i => [BuildEvent.invoke i, BuildEvent.complete i])) ∧
    ∃ srcs, (createFrameSource r (width : ℚ) (height : ℚ) clip).2 = Except.ok srcs ∧
      srcs.map Prod.fst = visualLayers clip ∧
      ∀ (t : ℚ) (last : Option String),
        runEngine r width height clip t last =
          some (readNextFrame width height srcs t last).1 := by
  constructor
  · rw [createFrameSource,
      buildLoop_events_of_valid r ↑width ↑height (visualLayers clip) 0 hvalid,
      seqEvents_eq_flatten]
    simp
  · obtain ⟨srcs, hok, hmap⟩ :=
      buildLoop_ok_of_valid r ↑width ↑height (visualLayers clip) 0 hvalid
    refine ⟨srcs, ?_, hmap, ?_⟩
    · rw [createFrameSource]
      exact hok
    · intro t last
      have hok2 : (createFrameSource r (width : ℚ) (height : ℚ) clip).2 =
          Except.ok srcs := by
        rw [createFrameSource]; exact hok
      simp only [runEngine, hok2]

/-- Every visual layer of the two-layer clip resolves in the registry. -/
lemma twoLayer_valid : ∀ l ∈ visualLayers twoLayerClip,
    (lookupCreateFunc ⟨"z"⟩ ((1 : ℕ) : ℚ) ((1 : ℕ) : ℚ) l).isSome = true := by
  intro l hl
  simp [visualLayers, twoLayerClip, fillLayer, fillLayer2] at hl
  rcases hl with rfl | rfl <;> rfl

/-- C9 witness: the two-layer clip constructs sequentially — invoke 0,
complete 0, invoke 1, complete 1 — and succeeds with its two sources in
layer order. -/
theorem c9_witness :
    (∀ l ∈ visualLayers twoLayerClip,
      (lookupCreateFunc ⟨"z"⟩ ((1 : ℕ) : ℚ) ((1 : ℕ) : ℚ) l).isSome = true) ∧
    ((createFrameSource ⟨"z"⟩ ((1 : ℕ) : ℚ) ((1 : ℕ) : ℚ) twoLayerClip).1 =
      List.flatten ((List.range (visualLayers twoLayerClip).length).map
        (fun i => [BuildEvent.invoke i, BuildEvent.complete i])) ∧
    ∃ srcs, (createFrameSource ⟨"z"⟩ ((1 : ℕ) : ℚ) ((1 : ℕ) : ℚ) twoLayerClip).2 =
        Except.ok srcs ∧
      srcs.map Prod.fst = visualLayers twoLayerClip ∧
      ∀ (t : ℚ) (last : Option String),
        runEngine ⟨"z"⟩ 1 1 twoLayerClip t last =
          some (readNextFrame 1 1 srcs t last).1) :=
  ⟨twoLayer_valid, c9_sequential_construction ⟨"z"⟩ 1 1 twoLayerClip twoLayer_valid⟩

end Editly
